import Mathlib

/-!
Shallow embedding of `api_server.py` (field_ingest_app): the HTTP request
handlers of the Ingest Engine API and, in particular, the log-reconstruction
loop of `_handle_logs`.  Files read by the handlers are modelled as explicit
inputs (`Option` for presence/parseability); machine-level concerns (sockets,
threads) are outside the handlers' logic and are not modelled.
-/

/-- JSON values, as produced by `json.load` and consumed by `json.dumps`.
Numbers are modelled as integers: every numeral the server itself writes is
integral, and the round-trip claims never inspect numbers. -/
inductive JValue where
  | null : JValue
  | bool (b : Bool) : JValue
  | num (n : Int) : JValue
  | str (s : String) : JValue
  | arr (elems : List JValue) : JValue
  | obj (fields : List (String × JValue)) : JValue

/-- A reconstructed log entry: the dict
`{"timestamp": ..., "level": ..., "message": ...}` built in `_handle_logs`. -/
structure LogEntry where
  timestamp : String
  level : String
  message : String
deriving DecidableEq, Repr

/-- ASCII whitespace stripped by Python's `str.strip()` (space, tab, newline,
carriage return, vertical tab, form feed).  Non-ASCII Unicode whitespace is
not modelled; log lines are ASCII. -/
def isPySpace (c : Char) : Bool :=
  c = ' ' || c = '\t' || c = '\n' || c = '\r' || c = '\x0b' || c = '\x0c'

/-- Python `str.strip()`: drop leading and trailing whitespace. -/
def pyStrip (s : String) : String :=
  String.mk (((s.data.dropWhile isPySpace).reverse.dropWhile isPySpace).reverse)

/-- Python `s.startswith(pre)`: `pre`'s characters are a prefix of `s`'s. -/
def pyStartsWith (s pre : String) : Bool :=
  pre.data.isPrefixOf s.data

/-- Character class at position `i` of the timestamp part of the log pattern
`\d{4}-\d{2}-\d{2} \d{2}:\d{2}:\d{2},\d{3}` (23 characters): the separator
required at `i`, or `none` when a digit is required. -/
def tsSepAt : Nat → Option Char
  | 4 => some '-'
  | 7 => some '-'
  | 10 => some ' '
  | 13 => some ':'
  | 16 => some ':'
  | 19 => some ','
  | _ => none

/-- Whether character `c` is allowed at position `i` of the timestamp. -/
def tsCharOK (i : Nat) (c : Char) : Bool :=
  match tsSepAt i with
  | some d => c = d
  | none => c.isDigit

/-- Whether `cs` is exactly a 23-character timestamp
`YYYY-MM-DD HH:MM:SS,mmm` (digits as in the regex's `\d`, ASCII). -/
def tsOK (cs : List Char) : Bool :=
  cs.length = 23 && (List.range 23).all (fun i => tsCharOK i (cs.getD i ' '))

/-- Consume the literal `pat` from the front of `cs`; the rest on success. -/
def consumeLit : List Char → List Char → Option (List Char)
  | [], cs => some cs
  | _ :: _, [] => none
  | p :: ps, c :: cs => if c = p then consumeLit ps cs else none

/-- The literal separator " - " of the log pattern. -/
def sepDash : List Char := [' ', '-', ' ']

/-- Consume one level alternative followed by " - ". -/
def tryLevel (lvl : String) (cs : List Char) : Option (List Char) :=
  match consumeLit lvl.data cs with
  | some r => consumeLit sepDash r
  | none => none

/-- The alternation `(INFO|WARNING|ERROR)` followed by " - ", alternatives
tried in the regex's order (their first characters differ, so at most one
alternative can apply). -/
def consumeLevel (cs : List Char) : Option (String × List Char) :=
  match tryLevel "INFO" cs with
  | some r => some ("INFO", r)
  | none =>
    match tryLevel "WARNING" cs with
    | some r => some ("WARNING", r)
    | none =>
      match tryLevel "ERROR" cs with
      | some r => some ("ERROR", r)
      | none => none

/-- `re.match` of the compiled pattern
`^(\d{4}-\d{2}-\d{2} \d{2}:\d{2}:\d{2},\d{3}) - (INFO|WARNING|ERROR) - (.*)$`
against a line (modelled without its trailing newline, which the final `$`
and the non-newline-matching `.` make invisible to the groups): the three
capture groups on success. -/
def logPatternMatch (line : String) : Option (String × String × String) :=
  let cs := line.data
  if tsOK (cs.take 23) then
    match consumeLit sepDash (cs.drop 23) with
    | some r1 =>
      match consumeLevel r1 with
      | some (lvl, r2) => some (String.mk (cs.take 23), lvl, String.mk r2)
      | none => none
    | none => none
  else none

/-- One iteration of the reconstruction loop in `_handle_logs`: a matching
line appends a fresh entry from the groups (message stripped); otherwise, if
entries exist and the line is non-blank after stripping, the stripped line is
appended to the last entry's message after a newline; otherwise the line is
dropped. -/
def reconstructStep (logs : List LogEntry) (line : String) : List LogEntry :=
  match logPatternMatch line with
  | some (ts, lvl, rest) =>
    logs ++ [{ timestamp := ts, level := lvl, message := pyStrip rest }]
  | none =>
    match logs.getLast? with
    | none => logs
    | some last =>
      if pyStrip line = "" then logs
      else logs.dropLast ++ [{ last with message := last.message ++ "\n" ++ pyStrip line }]

/-- The Log Reconstructor: fold the loop over the given lines, starting from
the empty entry list (`logs = []`). -/
def reconstruct (lines : List String) : List LogEntry :=
  lines.foldl reconstructStep []

/-- `all_lines[-100:]`: the last 100 lines (all of them when fewer). -/
def tailWindow (lines : List String) : List String :=
  lines.drop (lines.length - 100)

/-- The entry list `GET /api/logs` serialises: `[]` for an absent file,
otherwise the reconstruction of the last 100 raw lines. -/
def apiLogsEntries : Option (List String) → List LogEntry
  | none => []
  | some lines => reconstruct (tailWindow lines)

/-- JSON encoding of a reconstructed entry, as `json.dumps` serialises the
dict built in `_handle_logs`. -/
def logEntryJson (e : LogEntry) : JValue :=
  JValue.obj [("timestamp", JValue.str e.timestamp),
              ("level", JValue.str e.level),
              ("message", JValue.str e.message)]

/-- `{"error": msg}`. -/
def errJson (msg : String) : JValue :=
  JValue.obj [("error", JValue.str msg)]

/-- The `Paths` section values `_handle_folder` looks up with
`_config.get('Paths', key, fallback=None)`: `none` models a missing key. -/
structure PathsCfg where
  watch : Option String
  processing : Option String
  processed : Option String
  output : Option String
  error : Option String

/-- One entry of `os.listdir`, together with the `os.path.isfile`, `os.stat`
facts the handler reads about it (`mtimeIso` is the already-formatted UTC
ISO-8601 time derived from `st_mtime`). -/
structure DirEntry where
  name : String
  isFile : Bool
  size : Nat
  mtimeIso : String
deriving DecidableEq, Repr

/-- One element of the `files` array in a folder listing. -/
structure FileEntry where
  name : String
  size : Nat
  mtimeIso : String
deriving DecidableEq, Repr

/-- JSON encoding of a listed file. -/
def fileEntryJson (f : FileEntry) : JValue :=
  JValue.obj [("name", JValue.str f.name),
              ("size", JValue.num (Int.ofNat f.size)),
              ("modified_time", JValue.str f.mtimeIso)]

/-- The filesystem and configuration state the handlers read and write.
A file field is `none` when `os.path.exists` is false; for the JSON-backed
files, `some none` is an existing file whose content does not parse
(`json.JSONDecodeError`) and `some (some v)` one parsing to `v`.  The log
file is its list of lines (`readlines`, trailing newlines dropped: the
pattern's final `$`/`.` and every `strip()` make them invisible).
`dirList p` is `some` of `os.listdir p` with per-entry facts when `p` is a
directory, `none` when `os.path.isdir p` is false.  `exc` stands for the
text of a caught exception when one is interpolated into an error body. -/
structure World where
  statusFile : Option (Option JValue)
  historyFile : Option (Option JValue)
  logFile : Option (List String)
  cfg : PathsCfg
  expand : String → String
  dirList : String → Option (List DirEntry)
  reportGen : Option (Option String)
  exc : String

/-- The synthesized idle snapshot of `_handle_status`. -/
def idleSnapshot : JValue :=
  JValue.obj [("status", JValue.str "idle"),
              ("file", JValue.str "None"),
              ("progress", JValue.num 0),
              ("stage", JValue.str "Idle")]

/-- `_handle_status`, as the `(status code, body)` it passes to
`_send_json_response`: missing file → idle snapshot with 200; unparseable
file → 500; otherwise the parsed JSON verbatim with 200. -/
def handleStatusRD (w : World) : Nat × JValue :=
  match w.statusFile with
  | none => (200, idleSnapshot)
  | some none => (500, errJson ("Error reading status: " ++ w.exc))
  | some (some d) => (200, d)

/-- `_handle_history`: missing file → `[]` with 200; unparseable file → 500;
otherwise the parsed JSON verbatim with 200. -/
def handleHistoryRD (w : World) : Nat × JValue :=
  match w.historyFile with
  | none => (200, JValue.arr [])
  | some none => (500, errJson ("Error reading history: " ++ w.exc))
  | some (some d) => (200, d)

/-- `_handle_logs`: missing file → `[]` with 200; otherwise the entries
reconstructed from the last 100 lines, serialised, with 200.  (The `IOError`
branch cannot arise once the lines are given.) -/
def handleLogsRD (w : World) : Nat × JValue :=
  match w.logFile with
  | none => (200, JValue.arr [])
  | some lines =>
    (200, JValue.arr ((reconstruct (tailWindow lines)).map logEntryJson))

/-- The `folder_map` dict of `_handle_folder`: `some` of the configured
value (itself an `Option`) for the five known names, `none` otherwise. -/
def folderLookup (cfg : PathsCfg) (name : String) : Option (Option String) :=
  if name = "watch" then some cfg.watch
  else if name = "processing" then some cfg.processing
  else if name = "processed" then some cfg.processed
  else if name = "output" then some cfg.output
  else if name = "error" then some cfg.error
  else none

/-- The five folder names `folder_map` knows. -/
def folderNames : List String :=
  ["watch", "processing", "processed", "output", "error"]

/-- The listing loop: keep regular files whose names do not start with a
dot, projecting name, size and modified time. -/
def listFiles (entries : List DirEntry) : List FileEntry :=
  entries.filterMap (fun e =>
    if e.isFile && !(pyStartsWith e.name ".") then
      some { name := e.name, size := e.size, mtimeIso := e.mtimeIso }
    else none)

/-- `_handle_folder`: unknown name or falsy configured path (absent key,
`None`, or empty string) → 400; resolved path not a directory → 404;
otherwise the filtered listing with 200.  (The `os.listdir` exception branch
returning 500 cannot arise once `dirList` yields the entries.) -/
def handleFolderRD (w : World) (name : String) : Nat × JValue :=
  match folderLookup w.cfg name with
  | none => (400, errJson ("Invalid folder: " ++ name))
  | some none => (400, errJson ("Invalid folder: " ++ name))
  | some (some p) =>
    if p = "" then (400, errJson ("Invalid folder: " ++ name))
    else
      match w.dirList (w.expand p) with
      | none => (404, errJson ("Path not found: " ++ w.expand p))
      | some entries =>
        (200, JValue.obj [("folder", JValue.str name),
                          ("files", JValue.arr ((listFiles entries).map fileEntryJson))])

/-- `_handle_report`: generator unavailable → 501; generator returns a falsy
value → 400 with `success: false`; otherwise 200 with the artifact path. -/
def handleReportRD (w : World) : Nat × JValue :=
  match w.reportGen with
  | none => (501, errJson "PDF report generation not available")
  | some none =>
    (400, JValue.obj [("success", JValue.bool false),
                      ("error", JValue.str "No history to report")])
  | some (some p) =>
    (200, JValue.obj [("success", JValue.bool true), ("path", JValue.str p)])

/-- The route `'/api/folders/'` whose remainder names the folder. -/
def foldersRoute : String := "/api/folders/"

/-- The separator's characters. -/
def foldersSep : List Char := foldersRoute.data

/-- Whether `sep` occurs as a contiguous subsequence of `cs`. -/
def hasSeq (sep : List Char) : List Char → Bool
  | [] => sep.isEmpty
  | c :: cs => sep.isPrefixOf (c :: cs) || hasSeq sep cs

/-- `path.split('/api/folders/')[-1]` over characters: the suffix after the
last occurrence of the separator, the whole list when it does not occur. -/
def lastSplitSeg : List Char → List Char
  | [] => []
  | c :: cs =>
    if foldersSep.isPrefixOf (c :: cs) then
      lastSplitSeg ((c :: cs).drop foldersSep.length)
    else if hasSeq foldersSep cs then lastSplitSeg cs
    else c :: cs
termination_by l => l.length
decreasing_by
  · simp only [List.length_drop]
    have h13 : foldersSep.length = 13 := rfl
    simp only [h13, List.length_cons]
    omega
  · simp

/-- `folder_name = path.split('/api/folders/')[-1]`. -/
def folderNameOf (path : String) : String :=
  String.mk (lastSplitSeg path.data)

/-- The discovery payload of `GET /`. -/
def discoveryJson : JValue :=
  JValue.obj [("message", JValue.str "Ingest Engine API"),
              ("endpoints", JValue.arr
                [JValue.str "/api/status", JValue.str "/api/history",
                 JValue.str "/api/logs", JValue.str "/api/folders/{name}",
                 JValue.str "/api/health", JValue.str "/api/report"])]

/-- `do_GET`'s dispatch, as the `(status code, body)` handed to
`_send_json_response`, branch for branch in the source's order. -/
def dispatchGET (w : World) (path : String) : Nat × JValue :=
  if path = "/api/status" then handleStatusRD w
  else if path = "/api/history" then handleHistoryRD w
  else if path = "/api/logs" then handleLogsRD w
  else if pyStartsWith path foldersRoute then handleFolderRD w (folderNameOf path)
  else if path = "/api/health" then (200, JValue.obj [("status", JValue.str "ok")])
  else if path = "/api/report" then handleReportRD w
  else if path = "/" then (200, discoveryJson)
  else (404, errJson "Not found")

/-- The body of a successful clear-history response. -/
def clearedHistoryJson : JValue :=
  JValue.obj [("cleared", JValue.bool true),
              ("message", JValue.str "History cleared")]

/-- The body of a successful clear-logs response. -/
def clearedLogsJson : JValue :=
  JValue.obj [("cleared", JValue.bool true),
              ("message", JValue.str "Logs cleared")]

/-- `do_DELETE`'s dispatch on the write-success path: the state after the
write and the `(status code, body)` response.  `/api/history` overwrites the
history file with `json.dump([], f)` (the text `[]`); `/api/logs` opens the
log file with mode `w` and truncates it, leaving an existing empty file.
(A failing `open`/write answers 500 and is not modelled.) -/
def dispatchDELETE (w : World) (path : String) : World × Nat × JValue :=
  if path = "/api/history" then
    ({ w with historyFile := some (some (JValue.arr [])) }, 200, clearedHistoryJson)
  else if path = "/api/logs" then
    ({ w with logFile := some [] }, 200, clearedLogsJson)
  else (w, 404, errJson "Not found")

/-- One HTTP response: status code, the headers set by the handler's
`send_header` calls in order, and the JSON body when one is written. -/
structure HttpResponse where
  status : Nat
  headers : List (String × String)
  body : Option JValue

/-- The three permissive cross-origin headers, in the source's order (the
exact `send_header` calls shared by `_send_json_response` and `do_OPTIONS`). -/
def corsHeaderList : List (String × String) :=
  [("Access-Control-Allow-Origin", "*"),
   ("Access-Control-Allow-Methods", "GET, DELETE, OPTIONS"),
   ("Access-Control-Allow-Headers", "Content-Type")]

/-- The headers `_send_json_response` sets: `Content-Type` then the three
cross-origin headers. -/
def jsonHeaderList : List (String × String) :=
  ("Content-Type", "application/json") :: corsHeaderList

/-- `_send_json_response(data, status)`. -/
def sendJsonResponse (data : JValue) (status : Nat) : HttpResponse :=
  { status := status, headers := jsonHeaderList, body := some data }

/-- A full `GET` response: the dispatched body and status, serialised
through `_send_json_response`. -/
def doGET (w : World) (path : String) : HttpResponse :=
  sendJsonResponse (dispatchGET w path).2 (dispatchGET w path).1

/-- A full `DELETE` response, with the state after the write. -/
def doDELETE (w : World) (path : String) : World × HttpResponse :=
  ((dispatchDELETE w path).1,
   sendJsonResponse (dispatchDELETE w path).2.2 (dispatchDELETE w path).2.1)

/-- `do_OPTIONS`: 200, only the three cross-origin headers, no body. -/
def doOPTIONS : HttpResponse :=
  { status := 200, headers := corsHeaderList, body := none }

/-- The level alternatives of the log pattern. -/
def levelList : List String := ["INFO", "WARNING", "ERROR"]

/-- Shape invariant of a reconstructed entry: its level is one of the
pattern's alternatives and its timestamp matches the 23-character
`YYYY-MM-DD HH:MM:SS,mmm` pattern. -/
def entryOK (e : LogEntry) : Prop :=
  e.level ∈ levelList ∧ tsOK e.timestamp.data = true

instance (e : LogEntry) : Decidable (entryOK e) := by
  unfold entryOK; infer_instance

/-- The entry a header line's capture groups start. -/
def mkEntry (g : String × String × String) : LogEntry :=
  { timestamp := g.1, level := g.2.1, message := pyStrip g.2.2 }

/-- The spec's worked example: the header line. -/
def exHeader : String := "2024-01-15 10:30:00,123 - ERROR - Failed to process file"

/-- The spec's worked example: first continuation line. -/
def exCont1 : String := "Traceback (most recent call last):"

/-- The spec's worked example: second continuation line. -/
def exCont2 : String := "ValueError: bad input"

/-- The spec's worked example: the expected reconstructed entry. -/
def exEntry : LogEntry :=
  { timestamp := "2024-01-15 10:30:00,123", level := "ERROR",
    message := "Failed to process file\nTraceback (most recent call last):\nValueError: bad input" }

/-- The entry the example header alone reconstructs to. -/
def exHeaderEntry : LogEntry :=
  { timestamp := "2024-01-15 10:30:00,123", level := "ERROR",
    message := "Failed to process file" }

/-- A header line whose third capture group carries a trailing space. -/
def hdrTrailing : String := "2024-01-15 10:30:00,123 - INFO - x "

/-- A 101-line log file: one header followed by 100 continuation lines.
Reconstructing the whole file yields one entry, but the handler's window
drops the header. -/
def cexLines : List String := exHeader :: List.replicate 100 "x"

/-- An empty `Paths` configuration. -/
def emptyPaths : PathsCfg :=
  { watch := none, processing := none, processed := none,
    output := none, error := none }

/-- A minimal world: no files, empty configuration, identity expansion,
no directories, no report generator. -/
def baseWorld : World :=
  { statusFile := none, historyFile := none, logFile := none,
    cfg := emptyPaths, expand := id, dirList := fun _ => none,
    reportGen := none, exc := "" }

/-- A hidden regular file. -/
def entDot : DirEntry := { name := ".hidden", isFile := true, size := 1, mtimeIso := "t1" }

/-- A visible regular file. -/
def entFile : DirEntry := { name := "a.txt", isFile := true, size := 5, mtimeIso := "t2" }

/-- A subdirectory (not a regular file). -/
def entSub : DirEntry := { name := "sub", isFile := false, size := 0, mtimeIso := "t3" }

/-- A configuration with a configured watch folder, an unconfigured
processing folder and an empty-string error folder. -/
def cfgSample : PathsCfg :=
  { watch := some "/w", processing := none, processed := none,
    output := none, error := some "" }

/-- A world where the watch folder exists and holds the three entries. -/
def worldFolders : World :=
  { baseWorld with
    cfg := cfgSample,
    dirList := fun p => if p = "/w" then some [entDot, entFile, entSub] else none }

/-- The same configuration with no directory behind the path. -/
def worldNoDir : World :=
  { baseWorld with cfg := cfgSample, dirList := fun _ => none }

theorem consumeLevel_mem {cs : List Char} {lvl : String} {r : List Char}
    (h : consumeLevel cs = some (lvl, r)) : lvl ∈ levelList := by
  unfold consumeLevel at h
  split at h
  · simp only [Option.some.injEq, Prod.mk.injEq] at h
    rw [← h.1]; simp [levelList]
  · split at h
    · simp only [Option.some.injEq, Prod.mk.injEq] at h
      rw [← h.1]; simp [levelList]
    · split at h
      · simp only [Option.some.injEq, Prod.mk.injEq] at h
        rw [← h.1]; simp [levelList]
      · exact absurd h (by simp)

theorem logPatternMatch_shape {line ts lvl rest : String}
    (h : logPatternMatch line = some (ts, lvl, rest)) :
    tsOK ts.data = true ∧ lvl ∈ levelList := by
  simp only [logPatternMatch] at h
  split at h
  case isTrue hts =>
    split at h
    case h_1 r1 hr1 =>
      split at h
      case h_1 p hp =>
        simp only [Option.some.injEq, Prod.mk.injEq] at h
        obtain ⟨h1, h2, _⟩ := h
        constructor
        · rw [← h1]; exact hts
        · rw [← h2]; exact consumeLevel_mem hp
      case h_2 => exact absurd h (by simp)
    case h_2 => exact absurd h (by simp)
  case isFalse => exact absurd h (by simp)

theorem reconstructStep_header {logs : List LogEntry} {line ts lvl rest : String}
    (h : logPatternMatch line = some (ts, lvl, rest)) :
    reconstructStep logs line =
      logs ++ [{ timestamp := ts, level := lvl, message := pyStrip rest }] := by
  unfold reconstructStep
  rw [h]

theorem reconstructStep_cont {logs : List LogEntry} {line : String} {last : LogEntry}
    (h : logPatternMatch line = none) (hl : logs.getLast? = some last)
    (hs : pyStrip line ≠ "") :
    reconstructStep logs line =
      logs.dropLast ++ [{ last with message := last.message ++ "\n" ++ pyStrip line }] := by
  unfold reconstructStep
  rw [h, hl]
  dsimp only
  rw [if_neg hs]

theorem reconstructStep_dropped {logs : List LogEntry} {line : String}
    (h : logPatternMatch line = none) (hd : logs = [] ∨ pyStrip line = "") :
    reconstructStep logs line = logs := by
  unfold reconstructStep
  rw [h]
  rcases hd with hd | hd
  · subst hd; rfl
  · cases hl : logs.getLast? with
    | none => rfl
    | some last => dsimp only; rw [if_pos hd]

theorem reconstructStep_length (logs : List LogEntry) (line : String) :
    (reconstructStep logs line).length ≤ logs.length + 1 := by
  unfold reconstructStep
  split
  · simp
  · split
    · omega
    · split
      · omega
      · simp only [List.length_append, List.length_dropLast, List.length_cons,
          List.length_nil]
        omega

theorem reconstructStep_entryOK {logs : List LogEntry} {line : String}
    (h : ∀ e ∈ logs, entryOK e) :
    ∀ e ∈ reconstructStep logs line, entryOK e := by
  intro e he
  unfold reconstructStep at he
  split at he
  case h_1 ts lvl rest heq =>
    rcases List.mem_append.1 he with h1 | h1
    · exact h e h1
    · simp only [List.mem_singleton] at h1
      subst h1
      have hsh := logPatternMatch_shape heq
      exact ⟨hsh.2, hsh.1⟩
  case h_2 =>
    split at he
    case h_1 => exact h e he
    case h_2 last hl =>
      split at he
      · exact h e he
      · rcases List.mem_append.1 he with h1 | h1
        · exact h e (List.dropLast_subset logs h1)
        · simp only [List.mem_singleton] at h1
          subst h1
          have hlast : last ∈ logs := List.mem_of_mem_getLast? hl
          exact h last hlast

theorem foldl_reconstructStep_length (lines : List String) :
    ∀ acc : List LogEntry,
      (List.foldl reconstructStep acc lines).length ≤ acc.length + lines.length := by
  induction lines with
  | nil => intro acc; simp
  | cons l ls ih =>
    intro acc
    simp only [List.foldl_cons, List.length_cons]
    have h1 := ih (reconstructStep acc l)
    have h2 := reconstructStep_length acc l
    omega

theorem foldl_reconstructStep_entryOK (lines : List String) :
    ∀ acc : List LogEntry, (∀ e ∈ acc, entryOK e) →
      ∀ e ∈ List.foldl reconstructStep acc lines, entryOK e := by
  induction lines with
  | nil => intro acc hacc; simpa using hacc
  | cons l ls ih =>
    intro acc hacc
    simp only [List.foldl_cons]
    exact ih (reconstructStep acc l) (reconstructStep_entryOK hacc)

theorem foldl_reconstructStep_headers {lines : List String}
    {gs : List (String × String × String)}
    (h : List.Forall₂ (fun l g => logPatternMatch l = some g) lines gs) :
    ∀ acc : List LogEntry,
      List.foldl reconstructStep acc lines = acc ++ gs.map mkEntry := by
  induction h with
  | nil => intro acc; simp
  | cons hlg hrest ih =>
    intro acc
    simp only [List.foldl_cons, List.map_cons]
    rw [reconstructStep_header hlg, ih]
    simp [mkEntry]

theorem tailWindow_of_le {lines : List String} (h : lines.length ≤ 100) :
    tailWindow lines = lines := by
  unfold tailWindow
  have : lines.length - 100 = 0 := by omega
  rw [this, List.drop_zero]

theorem tailWindow_length_le (lines : List String) :
    (tailWindow lines).length ≤ 100 := by
  unfold tailWindow
  rw [List.length_drop]
  omega

/-- Claim C1: the Log Reconstructor starts a new entry at every line
matching the `TIMESTAMP - LEVEL - MESSAGE` pattern (timestamp, level, and
trimmed remainder as initial message); it appends a non-matching line,
trimmed, after a newline to the most recently started entry's message only
when an entry exists and the line is non-blank after trimming, and drops the
line otherwise; and the spec's worked example (header plus two traceback
continuation lines) reconstructs to the stated single entry. -/
theorem claim_C1_reconstruction :
    (∀ (logs : List LogEntry) (line ts lvl rest : String),
       logPatternMatch line = some (ts, lvl, rest) →
       reconstructStep logs line =
         logs ++ [{ timestamp := ts, level := lvl, message := pyStrip rest }]) ∧
    (∀ (logs : List LogEntry) (line : String) (last : LogEntry),
       logPatternMatch line = none → logs.getLast? = some last →
       pyStrip line ≠ "" →
       reconstructStep logs line =
         logs.dropLast ++
           [{ last with message := last.message ++ "\n" ++ pyStrip line }]) ∧
    (∀ (logs : List LogEntry) (line : String),
       logPatternMatch line = none → (logs = [] ∨ pyStrip line = "") →
       reconstructStep logs line = logs) ∧
    reconstruct [exHeader, exCont1, exCont2] = [exEntry] := by
  refine ⟨?_, ?_, ?_, ?_⟩
  · intro logs line ts lvl rest h
    exact reconstructStep_header h
  · intro logs line last h hl hs
    exact reconstructStep_cont h hl hs
  · intro logs line h hd
    exact reconstructStep_dropped h hd
  · decide

set_option maxRecDepth 8192 in
/-- Witness for C1: the three clauses applied at concrete inputs — the
example header starts an entry on the empty state, the first continuation
line is appended to it, and a blank line is dropped. -/
theorem claim_C1_reconstruction_witness :
    reconstructStep [] exHeader = [exHeaderEntry] ∧
    reconstructStep [exHeaderEntry] exCont1 =
      [{ exHeaderEntry with
          message := exHeaderEntry.message ++ "\n" ++ pyStrip exCont1 }] ∧
    reconstructStep [] exCont1 = [] :=
  ⟨claim_C1_reconstruction.1 [] exHeader "2024-01-15 10:30:00,123" "ERROR"
     "Failed to process file" (by decide),
   claim_C1_reconstruction.2.1 [exHeaderEntry] exCont1 exHeaderEntry
     (by decide) rfl (by decide),
   claim_C1_reconstruction.2.2.1 [] exCont1 (by decide) (Or.inl rfl)⟩

set_option maxRecDepth 100000 in
/-- Counterexample to C2 as stated: for the 101-line file `cexLines` (one
header, then 100 continuation lines) reconstructing the whole file yields
K = 1 entry, so the claim demands the final min(1,100) = 1 entry in the
response; but the handler reconstructs only the last 100 raw lines, and the
response is the empty array. -/
theorem claim_C2_counterexample :
    (reconstruct cexLines).length = 1 ∧
    apiLogsEntries (some cexLines) = [] ∧
    handleLogsRD { baseWorld with logFile := some cexLines } =
      (200, JValue.arr []) := by
  refine ⟨by decide, by decide, rfl⟩

/-- Claim C2 as amended: `GET /api/logs` reconstructs entries from the last
100 raw lines of the log file (not from the whole file) and returns all of
them, oldest first; when the file has at most 100 lines this is exactly the
whole-file reconstruction; an absent file yields the empty array. -/
theorem claim_C2_amended :
    (∀ (w : World) (lines : List String), w.logFile = some lines →
       handleLogsRD w =
         (200, JValue.arr ((reconstruct (tailWindow lines)).map logEntryJson))) ∧
    (∀ (w : World) (lines : List String), w.logFile = some lines →
       lines.length ≤ 100 →
       handleLogsRD w =
         (200, JValue.arr ((reconstruct lines).map logEntryJson))) ∧
    (∀ w : World, w.logFile = none → handleLogsRD w = (200, JValue.arr [])) := by
  refine ⟨?_, ?_, ?_⟩
  · intro w lines h
    simp [handleLogsRD, h]
  · intro w lines h h100
    simp [handleLogsRD, h, tailWindow_of_le h100]
  · intro w h
    simp [handleLogsRD, h]

set_option maxRecDepth 8192 in
/-- Witness for the amended C2: a one-header-line log file produces exactly
that entry, and the absent-file case yields the empty array. -/
theorem claim_C2_amended_witness :
    handleLogsRD { baseWorld with logFile := some [exHeader] } =
      (200, JValue.arr [logEntryJson exHeaderEntry]) ∧
    handleLogsRD baseWorld = (200, JValue.arr []) :=
  ⟨claim_C2_amended.2.1 { baseWorld with logFile := some [exHeader] }
     [exHeader] rfl (by decide),
   claim_C2_amended.2.2 baseWorld rfl⟩

/-- Counterexample to C3 as stated: for the single header line
`hdrTrailing` (whose captured remainder is the two characters before the
line's end, with a trailing space) the reconstructor produces the message
with the space stripped, which differs from the captured remainder. -/
theorem claim_C3_counterexample :
    logPatternMatch hdrTrailing =
      some ("2024-01-15 10:30:00,123", "INFO", "x ") ∧
    reconstruct [hdrTrailing] =
      [{ timestamp := "2024-01-15 10:30:00,123", level := "INFO",
         message := "x" }] ∧
    ("x" : String) ≠ "x " := by
  refine ⟨by decide, by decide, by decide⟩

/-- Claim C3 as amended: for a log file of N header lines and no
continuation lines, the Log Reconstructor produces exactly N entries, each
with message equal to that header line's captured remainder stripped of
leading and trailing whitespace. -/
theorem claim_C3_amended :
    ∀ (lines : List String) (gs : List (String × String × String)),
      List.Forall₂ (fun l g => logPatternMatch l = some g) lines gs →
      reconstruct lines = gs.map mkEntry ∧
      (reconstruct lines).length = lines.length := by
  intro lines gs h
  have hr : reconstruct lines = gs.map mkEntry := by
    unfold reconstruct
    simpa using foldl_reconstructStep_headers h []
  refine ⟨hr, ?_⟩
  rw [hr, List.length_map, ← h.length_eq]

set_option maxRecDepth 8192 in
/-- Witness for the amended C3: a two-header-line file produces exactly the
two entries with stripped remainders as messages. -/
theorem claim_C3_amended_witness :
    reconstruct [exHeader, hdrTrailing] =
      [exHeaderEntry,
       { timestamp := "2024-01-15 10:30:00,123", level := "INFO",
         message := "x" }] ∧
    (reconstruct [exHeader, hdrTrailing]).length = 2 :=
  claim_C3_amended [exHeader, hdrTrailing]
    [("2024-01-15 10:30:00,123", "ERROR", "Failed to process file"),
     ("2024-01-15 10:30:00,123", "INFO", "x ")]
    (List.Forall₂.cons (by decide) (List.Forall₂.cons (by decide) List.Forall₂.nil))

/-- Claim C4: `GET /api/history` returns an existing, parseable history
file's parsed JSON content unchanged with status 200, and the empty array
with 200 when the file is absent. -/
theorem claim_C4_history_roundtrip :
    (∀ (w : World) (j : JValue), w.historyFile = some (some j) →
       handleHistoryRD w = (200, j)) ∧
    (∀ w : World, w.historyFile = none →
       handleHistoryRD w = (200, JValue.arr [])) := by
  constructor
  · intro w j h
    simp [handleHistoryRD, h]
  · intro w h
    simp [handleHistoryRD, h]

/-- Witness for C4: a concrete history value is passed through verbatim,
and the absent file yields the empty array. -/
theorem claim_C4_history_roundtrip_witness :
    handleHistoryRD
        { baseWorld with
          historyFile := some (some (JValue.arr [JValue.str "job1"])) } =
      (200, JValue.arr [JValue.str "job1"]) ∧
    handleHistoryRD baseWorld = (200, JValue.arr []) :=
  ⟨claim_C4_history_roundtrip.1
     { baseWorld with historyFile := some (some (JValue.arr [JValue.str "job1"])) }
     (JValue.arr [JValue.str "job1"]) rfl,
   claim_C4_history_roundtrip.2 baseWorld rfl⟩

/-- Claim C5: from any initial state, a successful `DELETE /api/history`
overwrites the history file with the empty JSON array, and a following
`GET /api/history` with no intervening writes returns `[]` with 200. -/
theorem claim_C5_clear_then_get :
    ∀ w : World,
      ((dispatchDELETE w "/api/history").1).historyFile =
        some (some (JValue.arr [])) ∧
      (dispatchDELETE w "/api/history").2 = (200, clearedHistoryJson) ∧
      handleHistoryRD (dispatchDELETE w "/api/history").1 =
        (200, JValue.arr []) ∧
      dispatchGET (dispatchDELETE w "/api/history").1 "/api/history" =
        (200, JValue.arr []) := by
  intro w
  exact ⟨rfl, rfl, rfl, rfl⟩

/-- Claim C6: whenever the status file does not exist, `GET /api/status`
answers 200 with the synthesized idle snapshot, never an error. -/
theorem claim_C6_status_idle :
    ∀ w : World, w.statusFile = none →
      handleStatusRD w = (200, idleSnapshot) ∧
      dispatchGET w "/api/status" = (200, idleSnapshot) := by
  intro w h
  have h1 : handleStatusRD w = (200, idleSnapshot) := by
    simp [handleStatusRD, h]
  refine ⟨h1, ?_⟩
  simp only [dispatchGET, if_pos rfl]
  exact h1

/-- Witness for C6: the minimal world has no status file and gets the idle
snapshot. -/
theorem claim_C6_status_idle_witness :
    handleStatusRD baseWorld = (200, idleSnapshot) ∧
    dispatchGET baseWorld "/api/status" = (200, idleSnapshot) :=
  claim_C6_status_idle baseWorld rfl

theorem folderLookup_eq_none {cfg : PathsCfg} {name : String}
    (h : name ∉ folderNames) : folderLookup cfg name = none := by
  simp only [folderNames, List.mem_cons, List.not_mem_nil, or_false,
    not_or] at h
  obtain ⟨h1, h2, h3, h4, h5⟩ := h
  simp [folderLookup, h1, h2, h3, h4, h5]

/-- Claim C7: `GET /api/folders/{name}` answers 400 with an error payload
for a name outside {watch, processing, processed, output, error} or a
missing/empty configured path, 404 when the resolved path is not a
directory, and otherwise a 200 listing holding exactly the regular files
whose names do not start with a dot, each with name, size and modified
time. -/
theorem claim_C7_folders :
    (∀ (w : World) (name : String), name ∉ folderNames →
       handleFolderRD w name = (400, errJson ("Invalid folder: " ++ name))) ∧
    (∀ (w : World) (name : String) (v : Option String),
       folderLookup w.cfg name = some v → (v = none ∨ v = some "") →
       handleFolderRD w name = (400, errJson ("Invalid folder: " ++ name))) ∧
    (∀ (w : World) (name p : String),
       folderLookup w.cfg name = some (some p) → p ≠ "" →
       w.dirList (w.expand p) = none →
       handleFolderRD w name =
         (404, errJson ("Path not found: " ++ w.expand p))) ∧
    (∀ (w : World) (name p : String) (entries : List DirEntry),
       folderLookup w.cfg name = some (some p) → p ≠ "" →
       w.dirList (w.expand p) = some entries →
       handleFolderRD w name =
         (200, JValue.obj
            [("folder", JValue.str name),
             ("files", JValue.arr ((listFiles entries).map fileEntryJson))])) ∧
    (∀ (entries : List DirEntry) (f : FileEntry),
       f ∈ listFiles entries ↔
         ∃ e ∈ entries, e.isFile = true ∧ pyStartsWith e.name "." = false ∧
           f = { name := e.name, size := e.size, mtimeIso := e.mtimeIso }) := by
  refine ⟨?_, ?_, ?_, ?_, ?_⟩
  · intro w name h
    simp [handleFolderRD, folderLookup_eq_none h]
  · intro w name v hlook hv
    rcases hv with rfl | rfl
    · simp [handleFolderRD, hlook]
    · simp [handleFolderRD, hlook]
  · intro w name p hlook hp hdir
    simp [handleFolderRD, hlook, hp, hdir]
  · intro w name p entries hlook hp hdir
    simp [handleFolderRD, hlook, hp, hdir]
  · intro entries f
    simp only [listFiles, List.mem_filterMap]
    constructor
    · rintro ⟨e, he, hg⟩
      split at hg
      case isTrue hc =>
        simp only [Option.some.injEq] at hg
        rw [Bool.and_eq_true, Bool.not_eq_true'] at hc
        exact ⟨e, he, hc.1, hc.2, hg.symm⟩
      case isFalse => exact absurd hg (by simp)
    · rintro ⟨e, he, h1, h2, rfl⟩
      refine ⟨e, he, ?_⟩
      rw [if_pos (by rw [Bool.and_eq_true, Bool.not_eq_true']; exact ⟨h1, h2⟩)]

/-- Witness for C7: in the sample world, an unknown name gets 400, the
unconfigured and the empty-string folders get 400, the configured watch
path without a directory behind it gets 404, and the existing watch
directory lists exactly the one visible regular file. -/
theorem claim_C7_folders_witness :
    handleFolderRD worldFolders "bogus" =
      (400, errJson "Invalid folder: bogus") ∧
    handleFolderRD worldFolders "processing" =
      (400, errJson "Invalid folder: processing") ∧
    handleFolderRD worldFolders "error" =
      (400, errJson "Invalid folder: error") ∧
    handleFolderRD worldNoDir "watch" =
      (404, errJson "Path not found: /w") ∧
    handleFolderRD worldFolders "watch" =
      (200, JValue.obj
        [("folder", JValue.str "watch"),
         ("files", JValue.arr
           [fileEntryJson { name := "a.txt", size := 5, mtimeIso := "t2" }])]) ∧
    ({ name := "a.txt", size := 5, mtimeIso := "t2" } : FileEntry) ∈
      listFiles [entDot, entFile, entSub] :=
  ⟨claim_C7_folders.1 worldFolders "bogus" (by decide),
   claim_C7_folders.2.1 worldFolders "processing" none rfl (Or.inl rfl),
   claim_C7_folders.2.1 worldFolders "error" (some "") rfl (Or.inr rfl),
   claim_C7_folders.2.2.1 worldNoDir "watch" "/w" rfl (by decide) rfl,
   claim_C7_folders.2.2.2.1 worldFolders "watch" "/w" [entDot, entFile, entSub]
     rfl (by decide) rfl,
   (claim_C7_folders.2.2.2.2 [entDot, entFile, entSub]
       { name := "a.txt", size := 5, mtimeIso := "t2" }).2
     ⟨entFile, by decide, rfl, by decide, rfl⟩⟩

/-- Counterexample to C8 as stated: the OPTIONS preflight response carries
no `Content-Type` header at all — `do_OPTIONS` sends only the three
cross-origin headers. -/
theorem claim_C8_counterexample :
    doOPTIONS.status = 200 ∧
    "Content-Type" ∉ doOPTIONS.headers.map Prod.fst := by
  refine ⟨rfl, by decide⟩

/-- Claim C8 as amended: every response sent through `_send_json_response`
— every success and error response of every GET and DELETE route — carries
the three permissive cross-origin headers and `Content-Type:
application/json`; the OPTIONS preflight response carries exactly the three
cross-origin headers (and hence no `Content-Type`). -/
theorem claim_C8_amended :
    (∀ (w : World) (path : String), (doGET w path).headers = jsonHeaderList) ∧
    (∀ (w : World) (path : String),
       ((doDELETE w path).2).headers = jsonHeaderList) ∧
    doOPTIONS.headers = corsHeaderList ∧
    ("Content-Type", "application/json") ∈ jsonHeaderList ∧
    (∀ h ∈ corsHeaderList, h ∈ jsonHeaderList) := by
  refine ⟨fun w path => rfl, fun w path => rfl, rfl, by decide, ?_⟩
  intro h hm
  simp only [jsonHeaderList, List.mem_cons]
  exact Or.inr hm

/-- Witness for the amended C8: concrete responses carry the headers, and
each concrete cross-origin header is among the JSON-response headers. -/
theorem claim_C8_amended_witness :
    (doGET baseWorld "/api/health").headers = jsonHeaderList ∧
    (doDELETE baseWorld "/api/logs").2.headers = jsonHeaderList ∧
    ("Access-Control-Allow-Origin", "*") ∈ jsonHeaderList ∧
    ("Access-Control-Allow-Methods", "GET, DELETE, OPTIONS") ∈ jsonHeaderList ∧
    ("Access-Control-Allow-Headers", "Content-Type") ∈ jsonHeaderList :=
  ⟨claim_C8_amended.1 baseWorld "/api/health",
   claim_C8_amended.2.1 baseWorld "/api/logs",
   claim_C8_amended.2.2.2.2 ("Access-Control-Allow-Origin", "*") (by decide),
   claim_C8_amended.2.2.2.2 ("Access-Control-Allow-Methods", "GET, DELETE, OPTIONS")
     (by decide),
   claim_C8_amended.2.2.2.2 ("Access-Control-Allow-Headers", "Content-Type")
     (by decide)⟩

/-- Claim C9: for every log file (present or absent), `GET /api/logs`
returns at most 100 entries, and every returned entry has a level among
INFO, WARNING, ERROR and a timestamp matching the 23-character
`YYYY-MM-DD HH:MM:SS,mmm` pattern. -/
theorem claim_C9_logs_invariant :
    ∀ file : Option (List String),
      (apiLogsEntries file).length ≤ 100 ∧
      ∀ e ∈ apiLogsEntries file, e.level ∈ levelList ∧
        tsOK e.timestamp.data = true := by
  intro file
  cases file with
  | none =>
    constructor
    · simp [apiLogsEntries]
    · intro e he
      simp [apiLogsEntries] at he
  | some lines =>
    constructor
    · have h1 := foldl_reconstructStep_length (tailWindow lines) []
      have h2 := tailWindow_length_le lines
      simp only [apiLogsEntries, reconstruct]
      simp only [List.length_nil] at h1
      omega
    · intro e he
      have := foldl_reconstructStep_entryOK (tailWindow lines) []
        (by intro e h; simp at h) e he
      exact this

set_option maxRecDepth 8192 in
/-- Witness for C9: the one-header-line file yields one entry, whose level
and timestamp satisfy the invariant. -/
theorem claim_C9_logs_invariant_witness :
    (apiLogsEntries (some [exHeader])).length ≤ 100 ∧
    (exHeaderEntry.level ∈ levelList ∧ tsOK exHeaderEntry.timestamp.data = true) :=
  ⟨(claim_C9_logs_invariant (some [exHeader])).1,
   (claim_C9_logs_invariant (some [exHeader])).2 exHeaderEntry (by decide)⟩

/-- Claim C10: `DELETE /api/logs` always answers 200 with
`{cleared: true, message: "Logs cleared"}` — the prior absence of the log
file does not matter — and leaves the log file existing and empty, so a
following `GET /api/logs` returns the empty array. -/
theorem claim_C10_clear_logs :
    ∀ w : World,
      (dispatchDELETE w "/api/logs").2 =
        (200, JValue.obj [("cleared", JValue.bool true),
                          ("message", JValue.str "Logs cleared")]) ∧
      ((dispatchDELETE w "/api/logs").1).logFile = some [] ∧
      handleLogsRD (dispatchDELETE w "/api/logs").1 = (200, JValue.arr []) ∧
      dispatchGET (dispatchDELETE w "/api/logs").1 "/api/logs" =
        (200, JValue.arr []) := by
  intro w
  exact ⟨rfl, rfl, rfl, rfl⟩
